import Mathlib

/-!
Shallow embedding of the bunsenite CLI core (src/error.rs and src/main.rs).

The external Nickel engine (`NickelLoader`, crate `bunsenite`'s library part)
is not part of the embedded sources; the router treats it as an opaque
collaborator, so its operations (`parse_file`, `validate`), the file system
read, and the serde serializers appear here as function parameters of the
router functions, exactly at the call sites they occupy in `main.rs`.

Console output is modelled as two lists of lines (stdout, stderr), in the
order the corresponding `println!` / `eprintln!` statements execute.
`eprintln!("\nSuggestion: ...")` therefore contributes two stderr lines:
an empty one and the suggestion line.  A `.unwrap()` on an `Err` value is
modelled as the `panicked` outcome.
-/

namespace Bunsenite

/-- Payload of `std::io::Error` as seen by this crate: only its `Display`
text is ever used (interpolated by the `IoError` format string). -/
structure IoErr where
  msg : String
deriving DecidableEq

/-- The `Error` enum of src/error.rs: a closed tagged variant with exactly
six kinds, each constructor carrying only its own payload fields. -/
inductive Error where
  | ParseError (file : String) (message : String)
  | EvaluationError (file : String) (message : String)
  | SerializationError (message : String)
  | IoError (e : IoErr)
  | InvalidInput (message : String)
  | Internal (message : String)
deriving DecidableEq

/-- The tag of an `Error`, ignoring payload. -/
inductive Kind where
  | ParseError
  | EvaluationError
  | SerializationError
  | IoError
  | InvalidInput
  | Internal
deriving DecidableEq

def Error.kind : Error → Kind
  | .ParseError _ _ => .ParseError
  | .EvaluationError _ _ => .EvaluationError
  | .SerializationError _ => .SerializationError
  | .IoError _ => .IoError
  | .InvalidInput _ => .InvalidInput
  | .Internal _ => .Internal

/-- `Display` for `Error`, generated in the source by the `thiserror`
format attributes on each variant. -/
def Error.display : Error → String
  | .ParseError file message =>
      "Failed to parse Nickel file '" ++ file ++ "': " ++ message
  | .EvaluationError file message =>
      "Failed to evaluate Nickel program '" ++ file ++ "': " ++ message
  | .SerializationError message => "Failed to serialize result: " ++ message
  | .IoError e => "File I/O error: " ++ e.msg
  | .InvalidInput message => "Invalid input: " ++ message
  | .Internal message => "Internal error: " ++ message

/-- Factory `Error::parse_error`. -/
def Error.parse_error (file message : String) : Error :=
  Error.ParseError file message

/-- Factory `Error::evaluation_error`. -/
def Error.evaluation_error (file message : String) : Error :=
  Error.EvaluationError file message

/-- Factory `Error::serialization_error`. -/
def Error.serialization_error (message : String) : Error :=
  Error.SerializationError message

/-- Factory `Error::invalid_input`. -/
def Error.invalid_input (message : String) : Error :=
  Error.InvalidInput message

/-- Factory `Error::internal`. -/
def Error.internal (message : String) : Error :=
  Error.Internal message

/-- The `From<std::io::Error>` conversion derived by `#[from]` on the
`IoError` variant (used by the `?` operator in `handle_validate`). -/
def Error.fromIoErr (e : IoErr) : Error :=
  Error.IoError e

/-- `Error::is_recoverable`: `matches!(self, ParseError | InvalidInput |
EvaluationError)`. -/
def Error.is_recoverable : Error → Bool
  | .ParseError _ _ => true
  | .InvalidInput _ => true
  | .EvaluationError _ _ => true
  | _ => false

/-- `Error::suggestion`: a fixed hint per kind, every arm `Some`. -/
def Error.suggestion : Error → Option String
  | .ParseError _ _ =>
      some "Check your Nickel syntax. Run 'nickel check' for detailed diagnostics."
  | .EvaluationError _ _ =>
      some "Ensure all variables are defined and types match."
  | .InvalidInput _ => some "Check the input format and try again."
  | .SerializationError _ =>
      some "Ensure the Nickel program produces valid JSON-serializable values."
  | .IoError _ => some "Check file permissions and path."
  | .Internal _ =>
      some "This is a bug. Please report it at: https://gitlab.com/campaign-for-cooler-coding-and-programming/bunsenite/-/issues"

/-- A `std::path::PathBuf` as the router observes it: the text produced by
`.display()` and the result of `.file_name().and_then(|n| n.to_str())`
(`none` when the path has no base name or it is not valid UTF-8). -/
structure RustPath where
  display : String
  fileNameOpt : Option String
deriving DecidableEq

/-- The `Commands` subcommand enum of src/main.rs. -/
inductive Commands where
  | Parse (file : RustPath) (pretty : Bool)
  | Validate (file : RustPath)
  | Info
deriving DecidableEq

/-- How one handler invocation ends: normal return `Ok(())`, normal return
`Err(e)`, or a panic (from `.unwrap()` on an `Err`). -/
inductive Outcome where
  | ok
  | error (e : Error)
  | panicked (msg : String)
deriving DecidableEq

/-- Console effect of one handler: stdout lines, stderr lines, outcome. -/
structure RunOut where
  stdout : List String
  stderr : List String
  outcome : Outcome
deriving DecidableEq

/-- `handle_parse` (src/main.rs lines 83-102).  `parse_file` stands for
`NickelLoader::new().with_verbose(verbose).parse_file(&file)`;
`to_string_pretty` and `to_string` stand for the serde_json serializers,
whose Rust type is fallible (`Result<String, serde_json::Error>`).  The
source applies `.unwrap()` to the serializer result, so a serializer
`Err` is a panic, not a returned error. -/
def handle_parse {V : Type} (file : RustPath) (pretty verbose : Bool)
    (parse_file : RustPath → Except Error V)
    (to_string_pretty to_string : V → Except String String) : RunOut :=
  let pre : List String :=
    if verbose then ["Parsing file: " ++ file.display] else []
  match parse_file file with
  | .error e => ⟨[], pre, .error e⟩
  | .ok v =>
    match (if pretty then to_string_pretty v else to_string v) with
    | .error m => ⟨[], pre, .panicked m⟩
    | .ok s =>
        ⟨[s],
         pre ++ (if verbose then ["✓ Successfully parsed and evaluated"] else []),
         .ok⟩

/-- `handle_validate` (src/main.rs lines 104-121).  `read_to_string`
stands for `std::fs::read_to_string(&file)`; its `Err` is converted by the
`?` operator through `From<std::io::Error>` into `Error::IoError`.
`validate` stands for `NickelLoader::new().with_verbose(verbose)
.validate(&source, name)`. -/
def handle_validate (file : RustPath) (verbose : Bool)
    (read_to_string : RustPath → Except IoErr String)
    (validate : String → String → Except Error Unit) : RunOut :=
  let pre : List String :=
    if verbose then ["Validating file: " ++ file.display] else []
  match read_to_string file with
  | .error ioe => ⟨[], pre, .error (Error.fromIoErr ioe)⟩
  | .ok source =>
    let name := file.fileNameOpt.getD "unknown.ncl"
    match validate source name with
    | .error e => ⟨[], pre, .error e⟩
    | .ok _ => ⟨["✓ Configuration is valid"], pre, .ok⟩

/-- The `println!` lines of `handle_info` (src/main.rs lines 123-141);
`version` stands for the crate constant `VERSION`. -/
def info_lines (version : String) : List String :=
  [ "Bunsenite v" ++ version,
    "",
    "A Nickel configuration file parser with multi-language FFI bindings",
    "",
    "Features:",
    "  • Type Safety: Compile-time guarantees via Rust's type system",
    "  • Memory Safety: Rust ownership model, zero unsafe blocks",
    "  • Offline-First: Works completely air-gapped, no network dependencies",
    "  • Multi-Language: FFI bindings for Deno, Rescript, and WASM",
    "",
    "Standards Compliance:",
    "  • RSR Framework: Bronze Tier",
    "  • TPCF Perimeter: 3 (Community Sandbox)",
    "  • License: Dual MIT + Palimpsest 0.8",
    "",
    "Repository: https://gitlab.com/campaign-for-cooler-coding-and-programming/bunsenite",
    "" ]

/-- `get_help_text` (src/main.rs lines 143-179). -/
def get_help_text (version : String) : String :=
  "Bunsenite v" ++ version ++ "\nNickel configuration file parser\n\nUSAGE:\n    bunsenite <COMMAND>\n\nCOMMANDS:\n    parse       Parse and evaluate a Nickel configuration file\n    validate    Validate a Nickel configuration without evaluating it\n    info        Show version and compliance information\n    help        Print this message or the help of the given subcommand(s)\n\nOPTIONS:\n    -v, --verbose    Enable verbose output\n    -h, --help       Print help information\n    -V, --version    Print version information\n\nEXAMPLES:\n    # Parse and evaluate a config file\n    bunsenite parse config.ncl\n\n    # Parse with pretty-printed output\n    bunsenite parse config.ncl --pretty\n\n    # Validate without evaluating\n    bunsenite validate config.ncl\n\n    # Show info\n    bunsenite info\n\nFor more information, visit:\nhttps://gitlab.com/campaign-for-cooler-coding-and-programming/bunsenite\n"

/-- The external collaborators of one invocation: the Nickel loader's two
operations, the file system read, and the two serde serializers. -/
structure Env (V : Type) where
  parse_file : RustPath → Except Error V
  to_string_pretty : V → Except String String
  to_string : V → Except String String
  read_to_string : RustPath → Except IoErr String
  validate : String → String → Except Error Unit

/-- The dispatch `match` of `main` (src/main.rs lines 56-72). -/
def run_command {V : Type} (env : Env V) (version : String)
    (cmd : Option Commands) (verbose : Bool) : RunOut :=
  match cmd with
  | some (.Parse file pretty) =>
      handle_parse file pretty verbose env.parse_file env.to_string_pretty env.to_string
  | some (.Validate file) =>
      handle_validate file verbose env.read_to_string env.validate
  | some .Info => ⟨info_lines version, [], .ok⟩
  | none => ⟨[get_help_text version], [], .ok⟩

/-- The stderr lines printed by `main`'s error branch (src/main.rs lines
74-80): `eprintln!("Error: {}", e)` then, when a suggestion is present,
`eprintln!("\nSuggestion: {}", suggestion)` (an empty line followed by the
suggestion line). -/
def error_report (e : Error) : List String :=
  ["Error: " ++ e.display] ++
    (match e.suggestion with
     | some s => ["", "Suggestion: " ++ s]
     | none => [])

/-- Whole-process observable behaviour: all stdout lines, all stderr
lines, and the exit status. -/
structure ProcessOut where
  stdout : List String
  stderr : List String
  exitCode : Nat
deriving DecidableEq

/-- `main` (src/main.rs lines 53-81): dispatch, then the error branch.
`process::exit(1)` on `Err`, implicit status 0 on `Ok`; a Rust panic
terminates the process with status 101 and its message on stderr. -/
def main_model {V : Type} (env : Env V) (version : String)
    (cmd : Option Commands) (verbose : Bool) : ProcessOut :=
  let r := run_command env version cmd verbose
  match r.outcome with
  | .ok => ⟨r.stdout, r.stderr, 0⟩
  | .error e => ⟨r.stdout, r.stderr ++ error_report e, 1⟩
  | .panicked m => ⟨r.stdout, r.stderr ++ [m], 101⟩

/-! Concrete collaborator instances, used to evaluate the router on
specific runs. -/

/-- A path whose base name is available. -/
def cfgPath : RustPath := ⟨"config.ncl", some "config.ncl"⟩

/-- A loader call that succeeds (evaluated value abstracted to `Unit`). -/
def okLoader : RustPath → Except Error Unit := fun _ => Except.ok ()

/-- A serializer that succeeds with a fixed JSON text. -/
def okSerializer : Unit → Except String String := fun _ => Except.ok "1"

/-- A serializer whose result is `Err`, as `serde_json::to_string`'s
fallible return type permits. -/
def failingSerializer : Unit → Except String String :=
  fun _ => Except.error "key must be a string"

/-- A file read that succeeds with fixed source text. -/
def okRead : RustPath → Except IoErr String := fun _ => Except.ok "x = 1"

/-- A file read that fails with a typical I/O error. -/
def ioFailRead : RustPath → Except IoErr String :=
  fun _ => Except.error ⟨"No such file or directory (os error 2)"⟩

/-- A validate call that accepts every source. -/
def okValidate : String → String → Except Error Unit :=
  fun _ _ => Except.ok ()

/-- Environment whose file read fails. -/
def envReadFails : Env Unit :=
  ⟨okLoader, okSerializer, okSerializer, ioFailRead, okValidate⟩

/-- Environment whose every collaborator call succeeds. -/
def envAllOk : Env Unit :=
  ⟨okLoader, okSerializer, okSerializer, okRead, okValidate⟩

/-- Environment with the same read and validate behaviour as `envAllOk`
but a failing loader and failing serializers. -/
def envParsePartFails : Env Unit :=
  ⟨fun _ => Except.error (Error.internal "x"), failingSerializer,
   failingSerializer, okRead, okValidate⟩

/-! Theorems. -/

/-- Helper: `suggestion` returns `Some` on every kind, and the error
branch of `main` therefore always prints the three-line report. -/
theorem suggestion_total (e : Error) :
    ∃ s, e.suggestion = some s ∧
      error_report e = ["Error: " ++ e.display, "", "Suggestion: " ++ s] := by
  cases e <;> exact ⟨_, rfl, rfl⟩

/-- C3: for every `Error` value, whatever its payload, `is_recoverable`
is `true` exactly on the ParseError, EvaluationError and InvalidInput
kinds, and `false` exactly on the SerializationError, IoError and
Internal kinds. -/
theorem C3_is_recoverable_kind_table (e : Error) :
    (e.is_recoverable = true ↔
      (e.kind = Kind.ParseError ∨ e.kind = Kind.EvaluationError ∨
        e.kind = Kind.InvalidInput)) ∧
    (e.is_recoverable = false ↔
      (e.kind = Kind.SerializationError ∨ e.kind = Kind.IoError ∨
        e.kind = Kind.Internal)) := by
  cases e <;> simp [Error.is_recoverable, Error.kind]

/-- C6: `suggestion` is a total pure function of the kind alone — two
errors of equal kind have equal suggestions whatever their payloads —
and the suggestion of the Internal kind explicitly flags the error as a
bug to be reported. -/
theorem C6_suggestion_payload_independent :
    (∀ e e' : Error, e.kind = e'.kind → e.suggestion = e'.suggestion) ∧
    (∀ m : String,
      (Error.internal m).suggestion
        = some "This is a bug. Please report it at: https://gitlab.com/campaign-for-cooler-coding-and-programming/bunsenite/-/issues" ∧
      ∀ s : String, (Error.internal m).suggestion = some s →
        ∃ rest, s = "This is a bug. Please report it" ++ rest) := by
  constructor
  · intro e e' h
    cases e <;> cases e' <;> simp_all [Error.kind, Error.suggestion]
  · intro m
    refine ⟨rfl, ?_⟩
    intro s hs
    have h : "This is a bug. Please report it at: https://gitlab.com/campaign-for-cooler-coding-and-programming/bunsenite/-/issues" = s := by
      simpa [Error.internal, Error.suggestion] using hs
    exact ⟨" at: https://gitlab.com/campaign-for-cooler-coding-and-programming/bunsenite/-/issues", by rw [← h]; exact rfl⟩

/-- C6 witness: two Internal errors with different payloads have the same
suggestion. -/
theorem C6_witness :
    (Error.Internal "a").suggestion = (Error.Internal "b").suggestion :=
  C6_suggestion_payload_independent.1 (Error.Internal "a") (Error.Internal "b") rfl

/-- C7: `display` is the fixed per-kind format —
`"<label> '<file>': <message>"` for ParseError and EvaluationError,
`"<label>: <message>"` for the other four kinds — and consequently
contains every payload string supplied at construction verbatim. -/
theorem C7_display_format :
    (∀ f m, (Error.ParseError f m).display
        = "Failed to parse Nickel file '" ++ f ++ "': " ++ m) ∧
    (∀ f m, (Error.EvaluationError f m).display
        = "Failed to evaluate Nickel program '" ++ f ++ "': " ++ m) ∧
    (∀ m, (Error.SerializationError m).display
        = "Failed to serialize result: " ++ m) ∧
    (∀ e, (Error.IoError e).display = "File I/O error: " ++ e.msg) ∧
    (∀ m, (Error.InvalidInput m).display = "Invalid input: " ++ m) ∧
    (∀ m, (Error.Internal m).display = "Internal error: " ++ m) ∧
    (∀ f m, ∃ a b, (Error.ParseError f m).display = a ++ f ++ b ++ m) ∧
    (∀ f m, ∃ a b, (Error.EvaluationError f m).display = a ++ f ++ b ++ m) ∧
    (∀ m, ∃ a, (Error.SerializationError m).display = a ++ m) ∧
    (∀ e, ∃ a, (Error.IoError e).display = a ++ e.msg) ∧
    (∀ m, ∃ a, (Error.InvalidInput m).display = a ++ m) ∧
    (∀ m, ∃ a, (Error.Internal m).display = a ++ m) := by
  refine ⟨fun f m => rfl, fun f m => rfl, fun m => rfl, fun e => rfl,
    fun m => rfl, fun m => rfl,
    fun f m => ⟨"Failed to parse Nickel file '", "': ", rfl⟩,
    fun f m => ⟨"Failed to evaluate Nickel program '", "': ", rfl⟩,
    fun m => ⟨"Failed to serialize result: ", rfl⟩,
    fun e => ⟨"File I/O error: ", rfl⟩,
    fun m => ⟨"Invalid input: ", rfl⟩,
    fun m => ⟨"Internal error: ", rfl⟩⟩

/-- C10: `suggestion` returns `Some` on all six kinds — the `none` case
never occurs — so the top-level error report always carries a
`Suggestion: ` line. -/
theorem C10_always_suggestion (e : Error) :
    e.suggestion.isSome = true ∧
    ∃ s, e.suggestion = some s ∧
      error_report e = ["Error: " ++ e.display, "", "Suggestion: " ++ s] := by
  obtain ⟨s, hs, hr⟩ := suggestion_total e
  exact ⟨by rw [hs]; rfl, s, hs, hr⟩

/-- C1 as stated is false: on a Parse invocation whose loader call
succeeds but whose serialization fails, `handle_parse` panics (the source
unwraps the serializer result) instead of returning a
`SerializationError`. -/
theorem C1_counterexample :
    (handle_parse cfgPath false false okLoader failingSerializer failingSerializer).outcome
      = Outcome.panicked "key must be a string" ∧
    (handle_parse cfgPath false false okLoader failingSerializer failingSerializer).outcome
      ≠ Outcome.error (Error.SerializationError "key must be a string") := by
  exact ⟨rfl, by decide⟩

/-- C1 amended: when the loader call succeeds, a serialization failure
makes `handle_parse` panic — it is never surfaced as a
`SerializationError` result — and a successful serialization prints the
serializer's output verbatim as the sole stdout line. -/
theorem C1_serialization_behaviour {V : Type} (file : RustPath)
    (pretty verbose : Bool) (pf : RustPath → Except Error V)
    (tsp ts : V → Except String String) (v : V)
    (hok : pf file = Except.ok v) :
    (∀ m, (if pretty then tsp v else ts v) = Except.error m →
      (handle_parse file pretty verbose pf tsp ts).outcome = Outcome.panicked m) ∧
    (∀ s, (if pretty then tsp v else ts v) = Except.ok s →
      (handle_parse file pretty verbose pf tsp ts).stdout = [s] ∧
      (handle_parse file pretty verbose pf tsp ts).outcome = Outcome.ok) := by
  constructor
  · intro m hm
    simp [handle_parse, hok, hm]
  · intro s hs
    constructor <;> simp [handle_parse, hok, hs]

/-- C1 witness: the amended behaviour at a concrete run with a failing
serializer. -/
theorem C1_witness :
    (handle_parse cfgPath false false okLoader failingSerializer failingSerializer).outcome
      = Outcome.panicked "key must be a string" :=
  (C1_serialization_behaviour cfgPath false false okLoader failingSerializer
    failingSerializer () rfl).1 "key must be a string" rfl

/-- C2: whenever the dispatched operation returns an error, the process
prints `"Error: " ++ display` to the error stream followed (two lines
later, after the blank line `eprintln!("\nSuggestion: ...")` emits) by
the `"Suggestion: "`-prefixed line, and exits with status 1; when it
returns Ok the process exits with status 0. -/
theorem C2_error_reporting {V : Type} (env : Env V) (version : String)
    (cmd : Option Commands) (verbose : Bool) :
    (∀ e, (run_command env version cmd verbose).outcome = Outcome.error e →
      ∃ s, e.suggestion = some s ∧
        (main_model env version cmd verbose).exitCode = 1 ∧
        (main_model env version cmd verbose).stderr
          = (run_command env version cmd verbose).stderr
              ++ ["Error: " ++ e.display, "", "Suggestion: " ++ s]) ∧
    ((run_command env version cmd verbose).outcome = Outcome.ok →
      (main_model env version cmd verbose).exitCode = 0) := by
  constructor
  · intro e he
    obtain ⟨s, hs, hrep⟩ := suggestion_total e
    refine ⟨s, hs, ?_, ?_⟩ <;> simp [main_model, he, ← hrep, error_report]
  · intro h
    simp [main_model, h]

/-- C2 witness: a Validate run whose file read fails exits with status 1
and prints the error and suggestion lines. -/
theorem C2_witness :
    (main_model envReadFails "0.1.0" (some (Commands.Validate cfgPath)) false).exitCode
      = 1 := by
  obtain ⟨s, hs, h1, h2⟩ :=
    (C2_error_reporting envReadFails "0.1.0" (some (Commands.Validate cfgPath)) false).1
      (Error.fromIoErr ⟨"No such file or directory (os error 2)"⟩) rfl
  exact h1

/-- C4 as stated is false: a verbose Validate invocation whose loader
call succeeds prints exactly one trace line to the error stream — the
pre-call one — and no trace after the loader call. -/
theorem C4_counterexample :
    (handle_validate cfgPath true okRead okValidate).outcome = Outcome.ok ∧
    (handle_validate cfgPath true okRead okValidate).stderr
      = ["Validating file: config.ncl"] := by
  exact ⟨rfl, rfl⟩

/-- C4 amended: with verbosity enabled the router prints a one-line trace
to the error stream before each loader call in both handlers;
`handle_parse` prints a completion trace to the error stream only when
parsing and serialization both succeed, `handle_validate` prints no
post-call trace; standard output carries only the JSON result or the
fixed validate confirmation, never a trace line. -/
theorem C4_verbose_traces {V : Type} (file : RustPath) (pretty : Bool)
    (pf : RustPath → Except Error V) (tsp ts : V → Except String String)
    (rd : RustPath → Except IoErr String)
    (vd : String → String → Except Error Unit) :
    ((handle_parse file pretty true pf tsp ts).stderr.head?
        = some ("Parsing file: " ++ file.display)) ∧
    ((handle_parse file pretty true pf tsp ts).stderr
        = ["Parsing file: " ++ file.display] ∨
      ((handle_parse file pretty true pf tsp ts).stderr
        = ["Parsing file: " ++ file.display, "✓ Successfully parsed and evaluated"] ∧
       (handle_parse file pretty true pf tsp ts).outcome = Outcome.ok)) ∧
    ((handle_parse file pretty true pf tsp ts).stdout = [] ∨
      ∃ v s, pf file = Except.ok v ∧ (if pretty then tsp v else ts v) = Except.ok s ∧
        (handle_parse file pretty true pf tsp ts).stdout = [s]) ∧
    ((handle_validate file true rd vd).stderr
        = ["Validating file: " ++ file.display]) ∧
    ((handle_validate file true rd vd).stdout = [] ∨
      (handle_validate file true rd vd).stdout = ["✓ Configuration is valid"]) := by
  refine ⟨?_, ?_, ?_, ?_, ?_⟩
  · cases hpf : pf file with
    | error e => simp [handle_parse, hpf]
    | ok v =>
      cases hser : (if pretty then tsp v else ts v) with
      | error m => simp [handle_parse, hpf, hser]
      | ok s => simp [handle_parse, hpf, hser]
  · cases hpf : pf file with
    | error e => left; simp [handle_parse, hpf]
    | ok v =>
      cases hser : (if pretty then tsp v else ts v) with
      | error m => left; simp [handle_parse, hpf, hser]
      | ok s => right; constructor <;> simp [handle_parse, hpf, hser]
  · cases hpf : pf file with
    | error e => left; simp [handle_parse, hpf]
    | ok v =>
      cases hser : (if pretty then tsp v else ts v) with
      | error m => left; simp [handle_parse, hpf, hser]
      | ok s => right; refine ⟨v, s, ?_, ?_, ?_⟩ <;> simp [handle_parse, hpf, hser]
  · cases hrd : rd file with
    | error ioe => simp [handle_validate, hrd]
    | ok src =>
      cases hvd : vd src (file.fileNameOpt.getD "unknown.ncl") with
      | error e => simp [handle_validate, hrd, hvd]
      | ok u => simp [handle_validate, hrd, hvd]
  · cases hrd : rd file with
    | error ioe => left; simp [handle_validate, hrd]
    | ok src =>
      cases hvd : vd src (file.fileNameOpt.getD "unknown.ncl") with
      | error e => left; simp [handle_validate, hrd, hvd]
      | ok u => right; simp [handle_validate, hrd, hvd]

/-- C5 as stated is false: the `impl Error` block of src/error.rs
provides five factory operations, and none of them produces the IoError
kind (that kind is built only by the derived `From<std::io::Error>`
conversion). -/
theorem C5_counterexample :
    [(Error.parse_error "f" "m").kind,
     (Error.evaluation_error "f" "m").kind,
     (Error.serialization_error "m").kind,
     (Error.invalid_input "m").kind,
     (Error.internal "m").kind]
      = [Kind.ParseError, Kind.EvaluationError, Kind.SerializationError,
         Kind.InvalidInput, Kind.Internal] ∧
    Kind.IoError ∉
      [(Error.parse_error "f" "m").kind,
       (Error.evaluation_error "f" "m").kind,
       (Error.serialization_error "m").kind,
       (Error.invalid_input "m").kind,
       (Error.internal "m").kind] := by
  exact ⟨rfl, by decide⟩

/-- C5 amended: the Error type provides five factory operations —
`parse_error` and `evaluation_error` take file plus message, the other
three take a message alone — each producing exactly its own kind for
every payload and never the IoError kind; IoError is constructed only by
the `From` conversion from the underlying I/O error; and no kind can be
built with another kind's payload, structurally (constructors are
pairwise distinct). -/
theorem C5_factories (f m s : String) (ioe : IoErr) :
    (Error.parse_error f m).kind = Kind.ParseError ∧
    (Error.evaluation_error f m).kind = Kind.EvaluationError ∧
    (Error.serialization_error s).kind = Kind.SerializationError ∧
    (Error.invalid_input s).kind = Kind.InvalidInput ∧
    (Error.internal s).kind = Kind.Internal ∧
    (Error.fromIoErr ioe).kind = Kind.IoError ∧
    (Error.parse_error f m).kind ≠ Kind.IoError ∧
    (Error.evaluation_error f m).kind ≠ Kind.IoError ∧
    (Error.serialization_error s).kind ≠ Kind.IoError ∧
    (Error.invalid_input s).kind ≠ Kind.IoError ∧
    (Error.internal s).kind ≠ Kind.IoError ∧
    Error.parse_error f m = Error.ParseError f m ∧
    Error.evaluation_error f m = Error.EvaluationError f m ∧
    Error.serialization_error s = Error.SerializationError s ∧
    Error.invalid_input s = Error.InvalidInput s ∧
    Error.internal s = Error.Internal s ∧
    Error.serialization_error s ≠ Error.invalid_input s ∧
    Error.invalid_input s ≠ Error.internal s ∧
    Error.parse_error f m ≠ Error.evaluation_error f m := by
  refine ⟨rfl, rfl, rfl, rfl, rfl, rfl, ?_, ?_, ?_, ?_, ?_,
    rfl, rfl, rfl, rfl, rfl, ?_, ?_, ?_⟩ <;>
    simp [Error.parse_error, Error.evaluation_error, Error.serialization_error,
      Error.invalid_input, Error.internal, Error.fromIoErr, Error.kind]

/-- C8: `handle_validate` propagates a failed read as `IoError` (through
the `From` conversion) without printing to stdout; on a successful read
it queries `validate` with the source text and the display name derived
as the file's base name defaulting to the fixed placeholder
`"unknown.ncl"`; on a successful validate call it prints exactly the one
fixed confirmation line and nothing else to stdout. -/
theorem C8_validate_behaviour (file : RustPath) (verbose : Bool)
    (rd : RustPath → Except IoErr String)
    (vd : String → String → Except Error Unit) :
    (∀ ioe, rd file = Except.error ioe →
      handle_validate file verbose rd vd
        = ⟨[], if verbose then ["Validating file: " ++ file.display] else [],
           Outcome.error (Error.fromIoErr ioe)⟩) ∧
    (∀ src, rd file = Except.ok src →
      (∀ e, vd src (file.fileNameOpt.getD "unknown.ncl") = Except.error e →
        handle_validate file verbose rd vd
          = ⟨[], if verbose then ["Validating file: " ++ file.display] else [],
             Outcome.error e⟩) ∧
      (vd src (file.fileNameOpt.getD "unknown.ncl") = Except.ok () →
        handle_validate file verbose rd vd
          = ⟨["✓ Configuration is valid"],
             if verbose then ["Validating file: " ++ file.display] else [],
             Outcome.ok⟩)) := by
  constructor
  · intro ioe hioe
    simp [handle_validate, hioe]
  · intro src hsrc
    constructor
    · intro e he
      simp [handle_validate, hsrc, he]
    · intro hok
      simp [handle_validate, hsrc, hok]

/-- C8 witness: a concrete run whose read fails yields the IoError
result with empty stdout. -/
theorem C8_witness :
    handle_validate cfgPath false ioFailRead okValidate
      = ⟨[], [],
         Outcome.error (Error.fromIoErr ⟨"No such file or directory (os error 2)"⟩)⟩ :=
  (C8_validate_behaviour cfgPath false ioFailRead okValidate).1
    ⟨"No such file or directory (os error 2)"⟩ rfl

/-- C9: the whole-process behaviour of a Validate invocation — stdout,
stderr and exit code — is a deterministic function of the verbosity
flag, the file, the read's outcome (the file contents) and the
validator's verdicts: two runs whose collaborators agree on those are
identical, whatever the remaining collaborators do. -/
theorem C9_validate_deterministic {V W : Type} (env : Env V) (env' : Env W)
    (version : String) (file : RustPath) (verbose : Bool)
    (hread : env.read_to_string file = env'.read_to_string file)
    (hval : ∀ src name, env.validate src name = env'.validate src name) :
    main_model env version (some (Commands.Validate file)) verbose
      = main_model env' version (some (Commands.Validate file)) verbose := by
  have h : handle_validate file verbose env.read_to_string env.validate
      = handle_validate file verbose env'.read_to_string env'.validate := by
    unfold handle_validate
    rw [hread]
    cases env'.read_to_string file with
    | error ioe => rfl
    | ok src => simp only [hval]
  simp [main_model, run_command, h]

/-- C9 witness: two runs on the same contents with the same flags —
here even with different parse collaborators — produce identical
stdout, stderr and exit code. -/
theorem C9_witness :
    main_model envAllOk "0.1.0" (some (Commands.Validate cfgPath)) true
      = main_model envParsePartFails "0.1.0" (some (Commands.Validate cfgPath)) true :=
  C9_validate_deterministic envAllOk envParsePartFails "0.1.0" cfgPath true rfl
    (fun _ _ => rfl)

end Bunsenite
